import Mathlib

/-!
Verification of the ATS Resume Analyzer result-processing logic.

This file embeds, in Lean, the pure data-processing core of the repository:

* `src/ats_analyser.py`: `prepare_prompt`, `process_ats_results`,
  `generate_action_plan`, and the response post-processing of
  `get_gemini_response` (strict JSON parse, required-field check, and the
  brace-region DOTALL regex recovery).
* `src/app.py`: the score-number extraction of `display_score_card`
  (lines 38 and 48) and of `generate_pdf_report` (lines 264-270), and the
  color / status threshold rules.

Python values that can appear in a parsed JSON document are embedded as
`JValue` (numbers are modelled as integers: no claim involves floating
point, and the model replies put scores in strings).  Python exceptions
are embedded as the `PyErr` error type of an `Except` result; each
constructor names the concrete Python exception site it stands for.
-/

/-- A JSON-shaped Python value: `None`, `bool`, `int`, `str`, `list`, `dict`.
Numbers are modelled as integers (the repository never manipulates float
fields; see the module comment). -/
inductive JValue where
  | null : JValue
  | bool (b : Bool) : JValue
  | num (n : Int) : JValue
  | str (s : String) : JValue
  | arr (xs : List JValue) : JValue
  | obj (kvs : List (String × JValue)) : JValue
deriving Repr

mutual

/-- Structural boolean equality on `JValue` (deriving cannot handle the
nested lists, so it is spelt out). -/
def jeq : JValue → JValue → Bool
  | .null, .null => true
  | .bool a, .bool b => a == b
  | .num a, .num b => a == b
  | .str a, .str b => a == b
  | .arr a, .arr b => jeqList a b
  | .obj a, .obj b => jeqFields a b
  | _, _ => false

/-- Pointwise `jeq` on lists of values. -/
def jeqList : List JValue → List JValue → Bool
  | [], [] => true
  | x :: xs, y :: ys => jeq x y && jeqList xs ys
  | _, _ => false

/-- Pointwise `jeq` on key-value lists. -/
def jeqFields : List (String × JValue) → List (String × JValue) → Bool
  | [], [] => true
  | (k, v) :: xs, (l, w) :: ys => k == l && jeq v w && jeqFields xs ys
  | _, _ => false

end

mutual

theorem jeq_iff_eq : ∀ a b : JValue, jeq a b = true ↔ a = b
  | .null, .null => by simp [jeq]
  | .bool _, .bool _ => by simp [jeq]
  | .num _, .num _ => by simp [jeq]
  | .str _, .str _ => by simp [jeq]
  | .arr x, .arr y => by simp [jeq, jeqList_iff_eq x y]
  | .obj x, .obj y => by simp [jeq, jeqFields_iff_eq x y]
  | .null, .bool _ | .null, .num _ | .null, .str _ | .null, .arr _ | .null, .obj _
  | .bool _, .null | .bool _, .num _ | .bool _, .str _ | .bool _, .arr _ | .bool _, .obj _
  | .num _, .null | .num _, .bool _ | .num _, .str _ | .num _, .arr _ | .num _, .obj _
  | .str _, .null | .str _, .bool _ | .str _, .num _ | .str _, .arr _ | .str _, .obj _
  | .arr _, .null | .arr _, .bool _ | .arr _, .num _ | .arr _, .str _ | .arr _, .obj _
  | .obj _, .null | .obj _, .bool _ | .obj _, .num _ | .obj _, .str _ | .obj _, .arr _ => by
    simp [jeq]

theorem jeqList_iff_eq : ∀ xs ys : List JValue, jeqList xs ys = true ↔ xs = ys
  | [], [] => by simp [jeqList]
  | x :: xs, y :: ys => by simp [jeqList, jeq_iff_eq x y, jeqList_iff_eq xs ys]
  | [], _ :: _ => by simp [jeqList]
  | _ :: _, [] => by simp [jeqList]

theorem jeqFields_iff_eq : ∀ xs ys : List (String × JValue), jeqFields xs ys = true ↔ xs = ys
  | [], [] => by simp [jeqFields]
  | (k, v) :: xs, (l, w) :: ys => by
    simp [jeqFields, jeq_iff_eq v w, jeqFields_iff_eq xs ys, and_assoc]
  | [], _ :: _ => by simp [jeqFields]
  | _ :: _, [] => by simp [jeqFields]

end

instance : DecidableEq JValue := fun a b =>
  decidable_of_iff (jeq a b = true) (jeq_iff_eq a b)

/-- Python exceptions raised by the embedded code.  Each constructor is one
concrete raise site; the generic wrapping `Exception(f"Error ...: ...")`
around them does not change which underlying error occurred, so it is not
modelled. -/
inductive PyErr where
  | indexError : PyErr
  | intParseError : PyErr
  | rangeError (field : String) : PyErr
  | jsonDecodeError : PyErr
  | attrError : PyErr
  | typeError : PyErr
  | keyError : PyErr
  | emptyInputError : PyErr
  | missingFieldError (field : String) : PyErr
  | unparsableResponse : PyErr
deriving DecidableEq, Repr

instance {ε α : Type} [DecidableEq ε] [DecidableEq α] : DecidableEq (Except ε α) := fun x y =>
  match x, y with
  | .ok a, .ok b =>
    if h : a = b then .isTrue (by rw [h]) else .isFalse (by intro he; cases he; exact h rfl)
  | .error a, .error b =>
    if h : a = b then .isTrue (by rw [h]) else .isFalse (by intro he; cases he; exact h rfl)
  | .ok _, .error _ => .isFalse (by intro he; cases he)
  | .error _, .ok _ => .isFalse (by intro he; cases he)

/-- Boolean test for a successful `Except` result. -/
def except_is_ok {α : Type} : Except PyErr α → Bool
  | .ok _ => true
  | .error _ => false

/-- Python `str.isdigit` restricted to ASCII: the decimal digits `0`-`9`.
All inputs occurring in this development are ASCII. -/
def py_isdigit (c : Char) : Bool :=
  decide ('0' ≤ c ∧ c ≤ '9')

/-- Python whitespace as used by `str.split()` and `str.strip()`, restricted
to ASCII: space, tab, newline, carriage return, vertical tab, form feed. -/
def py_isspace (c : Char) : Bool :=
  c == ' ' || c == '\t' || c == '\n' || c == '\r' || c == '\x0b' || c == '\x0c'

/-- Python `s.split()[0]`: the first whitespace-delimited token of `s`, or
`none` when `s.split()` is empty (Python raises `IndexError` there). -/
def first_token (s : String) : Option String :=
  let cs := s.toList.dropWhile py_isspace
  if cs.isEmpty then none
  else some (String.mk (cs.takeWhile (fun c => !py_isspace c)))

/-- Numeric value of a list of decimal digit characters, as Python
`int` reads a digit string (most significant first). -/
def digits_to_nat (ds : List Char) : Nat :=
  ds.foldl (fun a c => a * 10 + (c.toNat - '0'.toNat)) 0

/-- Embeds the score extraction expression, int of the join of the digit
filter over the first whitespace token, shared verbatim by `process_ats_results`
(ats_analyser.py line 177), `display_score_card` (app.py lines 38 and 48)
and `generate_pdf_report` (app.py lines 264-265).  `IndexError` when `s`
has no token, `ValueError` (from int of the empty string) when the first
token holds no digit. -/
def extract_num (s : String) : Except PyErr Nat :=
  match first_token s with
  | none => .error .indexError
  | some tok =>
    let ds := tok.toList.filter py_isdigit
    if ds = [] then .error .intParseError
    else .ok (digits_to_nat ds)

mutual

/-- Python `repr` of a `JValue`, used by `str` on lists and dicts.  Strings
are shown in single quotes without escape handling: a simplification that is
exact for strings free of quotes, backslashes and control characters (no
claim evaluates `str`/`repr` on a container holding other strings). -/
def pyRepr : JValue → String
  | .null => "None"
  | .bool true => "True"
  | .bool false => "False"
  | .num n => toString n
  | .str s => "\x27" ++ s ++ "\x27"
  | .arr xs => "[" ++ pyReprElems xs ++ "]"
  | .obj kvs => "\x7b" ++ pyReprFields kvs ++ "\x7d"

/-- Comma-separated `repr` of list elements. -/
def pyReprElems : List JValue → String
  | [] => ""
  | [x] => pyRepr x
  | x :: y :: xs => pyRepr x ++ ", " ++ pyReprElems (y :: xs)

/-- Comma-separated `repr` of dict entries. -/
def pyReprFields : List (String × JValue) → String
  | [] => ""
  | [(k, v)] => "\x27" ++ k ++ "\x27: " ++ pyRepr v
  | (k, v) :: m :: kvs => "\x27" ++ k ++ "\x27: " ++ pyRepr v ++ ", " ++ pyReprFields (m :: kvs)

end

/-- Python `str(v)`: the string itself for strings, `repr` otherwise. -/
def pyStr : JValue → String
  | .str s => s
  | .null => pyRepr .null
  | .bool b => pyRepr (.bool b)
  | .num n => pyRepr (.num n)
  | .arr xs => pyRepr (.arr xs)
  | .obj kvs => pyRepr (.obj kvs)

/-- First-match lookup in a key-value list (Python dict access; dict keys
are unique, so first-match agrees with dict semantics). -/
def lookupJ : List (String × JValue) → String → Option JValue
  | [], _ => none
  | (k, v) :: kvs, key => if k = key then some v else lookupJ kvs key

/-- Whether `needle` occurs as a contiguous substring of `hay`
(Python `needle in hay` on strings). -/
def contains_sub (needle : List Char) : List Char → Bool
  | [] => needle.isEmpty
  | c :: cs => needle.isPrefixOf (c :: cs) || contains_sub needle cs

/-- Python `key in v`: key membership for dicts, element membership for
lists, substring test for strings, `TypeError` otherwise. -/
def py_contains (v : JValue) (key : String) : Except PyErr Bool :=
  match v with
  | .obj kvs => .ok (lookupJ kvs key).isSome
  | .arr xs => .ok (xs.any (fun x => jeq x (.str key)))
  | .str s => .ok (contains_sub key.toList s.toList)
  | _ => .error .typeError

/-- Python `v[key]` with a string key: dict item access (`KeyError` when
absent), `TypeError` on any other type. -/
def py_getitem (v : JValue) (key : String) : Except PyErr JValue :=
  match v with
  | .obj kvs =>
    match lookupJ kvs key with
    | some x => .ok x
    | none => .error .keyError
  | _ => .error .typeError

/-- Python `v.get(key, default)`: only dicts have a `get` attribute, every
other type raises `AttributeError`. -/
def py_get (v : JValue) (key : String) (default : JValue) : Except PyErr JValue :=
  match v with
  | .obj kvs => .ok ((lookupJ kvs key).getD default)
  | _ => .error .attrError

/-- The argument of `process_ats_results` / `generate_action_plan`: the
Python code branches on `isinstance(-, str)`, so the input is either raw
text or an already-parsed value. -/
inductive PyInput where
  | text (s : String) : PyInput
  | val (v : JValue) : PyInput

/-- One iteration of the validation loop of `process_ats_results`
(ats_analyser.py lines 173-179): if `field` is present, extract the numeric
score from `str(data[field])` and require `0 <= score_value <= 100`,
raising `ValueError(f"... must be between 0-100")` otherwise; if `field`
is absent, do nothing. -/
def check_score_field (data : JValue) (field : String) : Except PyErr Unit :=
  match py_contains data field with
  | .error e => .error e
  | .ok false => .ok ()
  | .ok true =>
    match py_getitem data field with
    | .error e => .error e
    | .ok v =>
      match extract_num (pyStr v) with
      | .error e => .error e
      | .ok n => if 0 ≤ n ∧ n ≤ 100 then .ok () else .error (.rangeError field)

/-- The loop `for score_field in ['JD Match', 'ATSScore']` of
`process_ats_results`, unrolled over its two-element list, followed by
`return data`. -/
def validate_scores (data : JValue) : Except PyErr JValue :=
  match check_score_field data "JD Match" with
  | .error e => .error e
  | .ok _ =>
    match check_score_field data "ATSScore" with
    | .error e => .error e
    | .ok _ => .ok data

/-- The character left brace, written via its code point to keep brace
characters out of literals. -/
def lbrace : Char := Char.ofNat 123

/-- The character right brace. -/
def rbrace : Char := Char.ofNat 125

/-- JSON insignificant whitespace (RFC 8259): space, tab, newline,
carriage return. -/
def json_ws (c : Char) : Bool :=
  c == ' ' || c == '\t' || c == '\n' || c == '\r'

/-- Drop leading JSON whitespace. -/
def skipWs : List Char → List Char
  | [] => []
  | c :: cs => if json_ws c then skipWs cs else c :: cs

/-- Value of a hexadecimal digit character. -/
def hexVal? (c : Char) : Option Nat :=
  if '0' ≤ c ∧ c ≤ '9' then some (c.toNat - '0'.toNat)
  else if 'a' ≤ c ∧ c ≤ 'f' then some (c.toNat - 'a'.toNat + 10)
  else if 'A' ≤ c ∧ c ≤ 'F' then some (c.toNat - 'A'.toNat + 10)
  else none

/-- Single-character JSON string escapes. -/
def unescape? : Char → Option Char
  | '"' => some '"'
  | '\\' => some '\\'
  | '/' => some '/'
  | 'b' => some '\x08'
  | 'f' => some '\x0c'
  | 'n' => some '\n'
  | 'r' => some '\r'
  | 't' => some '\t'
  | _ => none

/-- Parse the body of a JSON string after its opening quote, returning the
decoded characters and the input after the closing quote.  `\uXXXX`
escapes outside the surrogate range decode to the corresponding character
(surrogate pairs are not combined, a boundary of the model); raw control
characters are rejected as Python `json.loads` does in strict mode. -/
def parseStrChars : List Char → Option (List Char × List Char)
  | [] => none
  | '"' :: rest => some ([], rest)
  | '\\' :: 'u' :: h1 :: h2 :: h3 :: h4 :: rest =>
    match hexVal? h1, hexVal? h2, hexVal? h3, hexVal? h4 with
    | some a, some b, some c, some d =>
      let n := ((a * 16 + b) * 16 + c) * 16 + d
      if Nat.isValidChar n then
        match parseStrChars rest with
        | some (s, r) => some (Char.ofNat n :: s, r)
        | none => none
      else none
    | _, _, _, _ => none
  | '\\' :: e :: rest =>
    match unescape? e with
    | some c =>
      match parseStrChars rest with
      | some (s, r) => some (c :: s, r)
      | none => none
    | none => none
  | c :: rest =>
    if c.toNat < 0x20 then none
    else
      match parseStrChars rest with
      | some (s, r) => some (c :: s, r)
      | none => none

/-- Parse a JSON number.  Integer literals follow the JSON grammar
(optional minus, no leading zeros); a fraction or exponent part makes the
parse fail, since floating point is outside this model (no analysis field
the repository reads is a float literal). -/
def parseJsonNum (cs : List Char) : Option (JValue × List Char) :=
  let p : Bool × List Char :=
    match cs with
    | '-' :: r => (true, r)
    | _ => (false, cs)
  match p.2 with
  | [] => none
  | c :: rest =>
    if c = '0' then
      match rest with
      | [] => some (.num 0, [])
      | d :: _ =>
        if py_isdigit d || d == '.' || d == 'e' || d == 'E' then none
        else some (.num 0, rest)
    else if py_isdigit c then
      let ds := c :: rest.takeWhile py_isdigit
      let rest2 := rest.dropWhile py_isdigit
      let val : Int := if p.1 then -(digits_to_nat ds : Int) else (digits_to_nat ds : Int)
      match rest2 with
      | d :: _ =>
        if d == '.' || d == 'e' || d == 'E' then none
        else some (.num val, rest2)
      | [] => some (.num val, [])
    else none

mutual

/-- Parse one JSON value (model of Python `json.loads`, fuelled; leading
whitespace is skipped, the unconsumed input is returned). -/
def parseVal : Nat → List Char → Option (JValue × List Char)
  | 0, _ => none
  | fuel + 1, cs =>
    match skipWs cs with
    | [] => none
    | c :: cs1 =>
      if c = '"' then
        match parseStrChars cs1 with
        | some (s, r) => some (.str (String.mk s), r)
        | none => none
      else if c = '[' then
        match skipWs cs1 with
        | ']' :: r => some (.arr [], r)
        | cs2 =>
          match parseElems fuel cs2 with
          | some (xs, r) => some (.arr xs, r)
          | none => none
      else if c = lbrace then
        match skipWs cs1 with
        | d :: r =>
          if d = rbrace then some (.obj [], r)
          else
            match parseMembers fuel (d :: r) with
            | some (kvs, r2) => some (.obj kvs, r2)
            | none => none
        | [] => none
      else if c = 't' then
        match cs1 with
        | 'r' :: 'u' :: 'e' :: r => some (.bool true, r)
        | _ => none
      else if c = 'f' then
        match cs1 with
        | 'a' :: 'l' :: 's' :: 'e' :: r => some (.bool false, r)
        | _ => none
      else if c = 'n' then
        match cs1 with
        | 'u' :: 'l' :: 'l' :: r => some (.null, r)
        | _ => none
      else parseJsonNum (c :: cs1)

/-- Parse the comma-separated elements of a nonempty JSON array, up to and
including the closing bracket. -/
def parseElems : Nat → List Char → Option (List JValue × List Char)
  | 0, _ => none
  | fuel + 1, cs =>
    match parseVal fuel cs with
    | none => none
    | some (v, r) =>
      match skipWs r with
      | ',' :: r2 =>
        match parseElems fuel r2 with
        | some (vs, r3) => some (v :: vs, r3)
        | none => none
      | ']' :: r2 => some ([v], r2)
      | _ => none

/-- Parse the comma-separated members of a nonempty JSON object, up to and
including the closing brace. -/
def parseMembers : Nat → List Char → Option (List (String × JValue) × List Char)
  | 0, _ => none
  | fuel + 1, cs =>
    match skipWs cs with
    | '"' :: cs1 =>
      match parseStrChars cs1 with
      | none => none
      | some (k, r) =>
        match skipWs r with
        | ':' :: r2 =>
          match parseVal fuel r2 with
          | none => none
          | some (v, r3) =>
            match skipWs r3 with
            | d :: r4 =>
              if d = ',' then
                match parseMembers fuel r4 with
                | some (kvs, r5) => some ((String.mk k, v) :: kvs, r5)
                | none => none
              else if d = rbrace then some ([(String.mk k, v)], r4)
              else none
            | [] => none
        | _ => none
    | _ => none

end

/-- Model of Python `json.loads`: parse one value, then require only
whitespace to remain.  The fuel `2 * length + 2` dominates the recursion
depth, which grows by at most two per consumed character. -/
def json_loads (s : String) : Option JValue :=
  match parseVal (2 * s.length + 2) s.toList with
  | some (v, rest) => if (skipWs rest).isEmpty then some v else none
  | none => none

/-- JSON escaping of one character as `json.dumps` emits it, for the
escapes exercised here (quote, backslash, newline, tab, carriage return);
other characters are emitted raw, exact for printable ASCII. -/
def escape_json_char (c : Char) : List Char :=
  if c = '"' then ['\\', '"']
  else if c = '\\' then ['\\', '\\']
  else if c = '\n' then ['\\', 'n']
  else if c = '\t' then ['\\', 't']
  else if c = '\r' then ['\\', 'r']
  else [c]

/-- Serialize a string with quotes and escapes. -/
def dump_string (s : String) : List Char :=
  '"' :: (s.toList.map escape_json_char).flatten ++ ['"']

mutual

/-- Model of Python `json.dumps` with its default separators
(comma-space and colon-space). -/
def dumpVal : JValue → List Char
  | .null => "null".toList
  | .bool true => "true".toList
  | .bool false => "false".toList
  | .num n => (toString n).toList
  | .str s => dump_string s
  | .arr xs => '[' :: dumpElems xs ++ [']']
  | .obj kvs => lbrace :: dumpFields kvs ++ [rbrace]

/-- Comma-space separated serialization of array elements. -/
def dumpElems : List JValue → List Char
  | [] => []
  | [x] => dumpVal x
  | x :: y :: xs => dumpVal x ++ ',' :: ' ' :: dumpElems (y :: xs)

/-- Comma-space separated serialization of object members. -/
def dumpFields : List (String × JValue) → List Char
  | [] => []
  | [(k, v)] => dump_string k ++ ':' :: ' ' :: dumpVal v
  | (k, v) :: m :: kvs =>
    dump_string k ++ ':' :: ' ' :: dumpVal v ++ ',' :: ' ' :: dumpFields (m :: kvs)

end

/-- Serialize a `JValue` to JSON text. -/
def json_dumps (v : JValue) : String := String.mk (dumpVal v)

/-- Embeds `process_ats_results` (ats_analyser.py lines 167-184):
`json.loads` the input when it is a string (a parse failure is
`json.JSONDecodeError`), run the score-range loop, and return the data
unchanged. -/
def process_ats_results : PyInput → Except PyErr JValue
  | .text s =>
    match json_loads s with
    | some data => validate_scores data
    | none => .error .jsonDecodeError
  | .val data => validate_scores data

/-- Embeds `generate_action_plan` (ats_analyser.py lines 187-204): parse
string input, then build the action-plan dict literal.  The `get` chains
are evaluated in the order the dict literal writes them, including the
repeated lookup of the Recommendations record. -/
def generate_action_plan : PyInput → Except PyErr JValue
  | .text s =>
    match json_loads s with
    | some data => build_action_plan data
    | none => .error .jsonDecodeError
  | .val data => build_action_plan data
where
  build_action_plan (data : JValue) : Except PyErr JValue :=
    match py_get data "Recommendations" (.obj []) with
    | .error e => .error e
    | .ok recs1 =>
    match py_get recs1 "HighPriority" (.arr []) with
    | .error e => .error e
    | .ok immediate_actions =>
    match py_get data "Recommendations" (.obj []) with
    | .error e => .error e
    | .ok recs2 =>
    match py_get recs2 "KeywordOptimization" (.arr []) with
    | .error e => .error e
    | .ok keyword_integration =>
    match py_get data "MissingKeywords" (.arr []) with
    | .error e => .error e
    | .ok missing_keywords =>
    match py_get data "SkillsAlignment" (.obj []) with
    | .error e => .error e
    | .ok skills =>
    match py_get skills "GapAnalysis" (.str "") with
    | .error e => .error e
    | .ok skill_gaps =>
    match py_get data "RedFlags" (.arr []) with
    | .error e => .error e
    | .ok red_flags =>
    match py_get data "CompetitiveAdvantage" (.str "") with
    | .error e => .error e
    | .ok competitive_edge =>
      .ok (.obj [("immediate_actions", immediate_actions),
                 ("keyword_integration", keyword_integration),
                 ("missing_keywords", missing_keywords),
                 ("skill_gaps", skill_gaps),
                 ("red_flags_to_fix", red_flags),
                 ("competitive_edge", competitive_edge)])

/-- Python `s.strip()` (ASCII whitespace, consistent with `py_isspace`). -/
def py_strip (s : String) : String :=
  String.mk (((s.toList.dropWhile py_isspace).reverse.dropWhile py_isspace).reverse)
def prompt_seg1 : String :=
  "\n    Act as a senior ATS (Applicant Tracking System) specialist and career consultant with 15+ years of experience in:\n    - Technical recruitment and talent acquisition\n    - Software engineering, DevOps, and cloud technologies\n    - Data science, machine learning, and AI\n    - Data analysis and business intelligence\n    - Big data engineering and distributed systems\n    - Product management and technical leadership\n    \n    You understand how modern ATS systems work, including keyword matching algorithms, \n    semantic analysis, and ranking mechanisms used by companies like Google, Amazon, Microsoft, and Fortune 500 firms.\n    \n    ANALYSIS TASK:\n    Perform a comprehensive evaluation of the following resume against the job description. \n    Consider the highly competitive job market and provide actionable insights for optimization.\n    \n    RESUME CONTENT:\n    "

def prompt_seg2 : String :=
  "\n    \n    JOB DESCRIPTION:\n    "

def prompt_seg3 : String :=
  "\n    \n    EVALUATION CRITERIA:\n    1. Keyword density and relevance matching\n    2. Skills alignment with job requirements\n    3. Experience level and domain expertise\n    4. Education and certification relevance\n    5. ATS-friendliness (formatting, structure, parsing)\n    6. Achievement quantification and impact demonstration\n    7. Industry-specific terminology usage\n    8. Role progression and career trajectory\n    \n    Provide your analysis in the following JSON format ONLY (no additional text):\n    \x7b\n        \"JD Match\": \"percentage score between 0-100 with brief justification\",\n        \"ATSScore\": \"ATS parsing and keyword optimization score (0-100)\",\n        \"MissingKeywords\": [\n            \"critical technical keywords not found in resume\",\n            \"include both hard and soft skills\",\n            \"prioritize by importance to the role\"\n        ],\n        \"SkillsAlignment\": \x7b\n            \"MatchedSkills\": [\"skills that align well with JD\"],\n            \"PartiallyMatched\": [\"skills with some relevance\"],\n            \"GapAnalysis\": \"detailed analysis of skill gaps\"\n        \x7d,\n        \"ExperienceMatch\": \x7b\n            \"RelevantExperience\": \"assessment of relevant experience years and domains\",\n            \"LevelAlignment\": \"junior/mid/senior level match analysis\",\n            \"IndustryFit\": \"industry background compatibility assessment\"\n        \x7d,\n        \"Profile Summary\": \"comprehensive 3-4 sentence analysis covering overall match quality, strongest selling points, and competitive positioning\",\n        \"Recommendations\": \x7b\n            \"HighPriority\": [\n                \"most critical improvements for immediate implementation\",\n                \"focus on top 3-5 actionable items\"\n            ],\n            \"MediumPriority\": [\n                \"important enhancements for better positioning\",\n                \"include formatting and structure improvements\"\n            ],\n            \"KeywordOptimization\": [\n                \"specific phrases and terms to incorporate naturally\",\n                \"suggest placement strategies (summary, skills, experience)\"\n            ],\n            \"QuantificationOpportunities\": [\n                \"areas where metrics and numbers should be added\",\n                \"suggest specific types of achievements to highlight\"\n            ]\n        \x7d,\n        \"RedFlags\": [\n            \"potential issues that might cause automatic rejection\",\n            \"formatting or content problems for ATS parsing\"\n        ],\n        \"CompetitiveAdvantage\": \"unique strengths and differentiators to emphasize\"\n    \x7d\n    \n    IMPORTANT NOTES:\n    - Be specific and actionable in recommendations\n    - Consider both ATS optimization and human reviewer appeal\n    - Focus on realistic improvements rather than complete rewrites\n    - Prioritize changes that provide maximum impact\n    - Consider current market trends and in-demand skills\n    "


/-- Embeds `prepare_prompt` (ats_analyser.py lines 71-164): raise
`ValueError` when either raw argument is falsy (the empty string), else
return the template with both inputs stripped and substituted.
`prompt_seg1/2/3` are the template literal split at its two placeholders,
with Python `str.format` brace doubling already reduced, so the result is
exactly `prompt_template.format(resume_text=.., job_description=..)`. -/
def prepare_prompt (resume_text job_description : String) : Except PyErr String :=
  if resume_text = "" ∨ job_description = "" then .error .emptyInputError
  else
    .ok (prompt_seg1 ++ py_strip resume_text ++ prompt_seg2 ++
         py_strip job_description ++ prompt_seg3)

/-- Embeds the match-score extraction of `display_score_card`
(app.py line 38): `int(...) if match_score != "N/A" else 0`. -/
def display_match_num (match_score : JValue) : Except PyErr Nat :=
  if match_score ≠ JValue.str "N/A" then extract_num (pyStr match_score) else .ok 0

/-- Embeds the ATS-score extraction of `display_score_card`
(app.py line 48). -/
def display_ats_num (ats_score : JValue) : Except PyErr Nat :=
  if ats_score ≠ JValue.str "N/A" then extract_num (pyStr ats_score) else .ok 0

/-- Embeds the match-score extraction of `generate_pdf_report`
(app.py line 264). -/
def pdf_match_num (match_score : JValue) : Except PyErr Nat :=
  if match_score ≠ JValue.str "N/A" then extract_num (pyStr match_score) else .ok 0

/-- Embeds the ATS-score extraction of `generate_pdf_report`
(app.py line 265). -/
def pdf_ats_num (ats_score : JValue) : Except PyErr Nat :=
  if ats_score ≠ JValue.str "N/A" then extract_num (pyStr ats_score) else .ok 0

/-- Embeds `match_color` (app.py line 39): green at 70, orange at 50. -/
def match_color (n : Nat) : String :=
  if n ≥ 70 then "green" else if n ≥ 50 then "orange" else "red"

/-- Embeds `ats_color` (app.py line 49): green at 80, orange at 60. -/
def ats_color (n : Nat) : String :=
  if n ≥ 80 then "green" else if n ≥ 60 then "orange" else "red"

/-- Embeds the job-match status cell of the PDF score table
(app.py line 269). -/
def pdf_match_status (n : Nat) : String :=
  if n ≥ 70 then "Excellent" else if n ≥ 50 then "Good" else "Needs Improvement"

/-- Embeds the ATS status cell of the PDF score table (app.py line 270). -/
def pdf_ats_status (n : Nat) : String :=
  if n ≥ 80 then "Excellent" else if n ≥ 60 then "Good" else "Needs Improvement"

/-- The `required_fields` list of `get_gemini_response`
(ats_analyser.py lines 28-29). -/
def required_fields : List String :=
  ["JD Match", "MissingKeywords", "Profile Summary", "SkillsAlignment",
   "ExperienceMatch", "Recommendations", "ATSScore"]

/-- The required-field loop of `get_gemini_response` (lines 30-32):
`ValueError(f"Missing required field: ...")` at the first absent field.
The membership test is Python `in`, so a non-dict parse result can
`TypeError`. -/
def check_required_fields (rj : JValue) : List String → Except PyErr Unit
  | [] => .ok ()
  | f :: fs =>
    match py_contains rj f with
    | .error e => .error e
    | .ok b => if b then check_required_fields rj fs else .error (.missingFieldError f)

/-- Index of the first occurrence of `c`. -/
def first_index_of (c : Char) : List Char → Option Nat
  | [] => none
  | x :: xs => if x = c then some 0 else (first_index_of c xs).map (· + 1)

/-- Index of the last occurrence of `c`. -/
def last_index_of (c : Char) (cs : List Char) : Option Nat :=
  (first_index_of c cs.reverse).map (fun k => cs.length - 1 - k)

/-- Model of the greedy DOTALL regex search for a brace-delimited region
followed by taking the matched group (ats_analyser.py lines 39-42).
The leftmost match of that greedy pattern runs from the first left brace
that precedes the last right brace, through that last right brace; there
is no match when no left brace precedes the last right brace. -/
def brace_region (s : String) : Option String :=
  match first_index_of lbrace s.toList, last_index_of rbrace s.toList with
  | some i, some j =>
    if i < j then some (String.mk ((s.toList.drop i).take (j - i + 1))) else none
  | _, _ => none

/-- Embeds the response-text handling of `get_gemini_response`
(ats_analyser.py lines 23-44), from `response.text` onward (the network
call and the empty-response check are the external boundary): a strict
JSON parse followed by the required-field check returns the text itself;
on `json.JSONDecodeError`, the brace-region recovery returns the matched
substring without further validation, or raises
`Exception("Could not extract valid JSON response")`. -/
def get_gemini_response_on_text (text : String) : Except PyErr String :=
  match json_loads text with
  | some rj =>
    match check_required_fields rj required_fields with
    | .ok _ => .ok text
    | .error e => .error e
  | none =>
    match brace_region text with
    | some sub => .ok sub
    | none => .error .unparsableResponse

/-! ## Helper lemmas about the validator -/

/-- A score field absent from the mapping is skipped by the validation
loop (the check is guarded by `if score_field in data`). -/
theorem check_score_field_absent (m : List (String × JValue)) (f : String)
    (h : lookupJ m f = none) : check_score_field (.obj m) f = .ok () := by
  simp [check_score_field, py_contains, h]

/-- A present score field is checked through the shared extraction
expression followed by the range test. -/
theorem check_score_field_present (m : List (String × JValue)) (f : String) (v : JValue)
    (h : lookupJ m f = some v) :
    check_score_field (.obj m) f =
      (match extract_num (pyStr v) with
       | .error e => .error e
       | .ok n => if 0 ≤ n ∧ n ≤ 100 then .ok () else .error (.rangeError f)) := by
  simp [check_score_field, py_contains, py_getitem, h]

/-- The validation loop never rewrites its data: whenever it returns
successfully, it returns the input value itself. -/
theorem validate_scores_ok (d r : JValue) (h : validate_scores d = .ok r) : r = d := by
  unfold validate_scores at h
  cases h1 : check_score_field d "JD Match" with
  | error e => rw [h1] at h; cases h
  | ok u =>
    rw [h1] at h
    cases h2 : check_score_field d "ATSScore" with
    | error e => rw [h2] at h; cases h
    | ok u2 => rw [h2] at h; cases h; rfl

/-! ## Helper lemmas about score extraction -/

/-- A nonempty string has a nonempty character list. -/
theorem toList_ne_nil_of_ne_empty (s : String) (h : s ≠ "") : s.toList ≠ [] := by
  cases s with
  | mk l =>
    intro hl
    have hl2 : l = [] := hl
    exact h (by rw [hl2])

/-- When the first token is a digit run followed by digit-free characters,
the digit filter keeps exactly the leading run. -/
theorem filter_leading_digits (d u : String)
    (hdig : ∀ c ∈ d.toList, py_isdigit c = true)
    (hnd : ∀ c ∈ u.toList, py_isdigit c = false) :
    (d ++ u).toList.filter py_isdigit = d.toList := by
  have htl : (d ++ u).toList = d.toList ++ u.toList := rfl
  rw [htl, List.filter_append, List.filter_eq_self.mpr hdig]
  have hu : u.toList.filter py_isdigit = [] := by
    rw [List.filter_eq_nil_iff]
    intro a ha
    simp [hnd a ha]
  rw [hu, List.append_nil]

/-- Unfolding equation for `extract_num` when the first token exists. -/
theorem extract_num_eq_some (s tok : String) (h : first_token s = some tok) :
    extract_num s =
      (if tok.toList.filter py_isdigit = [] then .error .intParseError
       else .ok (digits_to_nat (tok.toList.filter py_isdigit))) := by
  unfold extract_num
  rw [h]

/-- Unfolding equation for `extract_num` when the string has no token. -/
theorem extract_num_eq_none (s : String) (h : first_token s = none) :
    extract_num s = .error .indexError := by
  unfold extract_num
  rw [h]

/-- Extraction on a string whose first token is a digit run `d` followed by
digit-free characters returns the value of `d`. -/
theorem extract_num_leading (s d u : String)
    (h : first_token s = some (d ++ u)) (hd : d ≠ "")
    (hdig : ∀ c ∈ d.toList, py_isdigit c = true)
    (hnd : ∀ c ∈ u.toList, py_isdigit c = false) :
    extract_num s = .ok (digits_to_nat d.toList) := by
  rw [extract_num_eq_some s (d ++ u) h, filter_leading_digits d u hdig hnd,
      if_neg (toList_ne_nil_of_ne_empty d hd)]

/-- Extraction on a string whose first token holds no digit fails with the
ValueError of int on the empty string. -/
theorem extract_num_no_digit (s tok : String)
    (h : first_token s = some tok)
    (hnd : tok.toList.filter py_isdigit = []) :
    extract_num s = .error .intParseError := by
  rw [extract_num_eq_some s tok h, if_pos hnd]

/-- Extraction on a string whose first token holds some digit returns the
concatenation of all its digit characters. -/
theorem extract_num_all_digits (s tok : String)
    (h : first_token s = some tok)
    (hnz : tok.toList.filter py_isdigit ≠ []) :
    extract_num s = .ok (digits_to_nat (tok.toList.filter py_isdigit)) := by
  rw [extract_num_eq_some s tok h, if_neg hnz]

/-- A string with digits in its first token is not the sentinel. -/
theorem ne_sentinel_of_leading (s d u : String)
    (h : first_token s = some (d ++ u)) (hd : d ≠ "")
    (hdig : ∀ c ∈ d.toList, py_isdigit c = true) : s ≠ "N/A" := by
  intro hs
  subst hs
  have hft : first_token "N/A" = some "N/A" := by decide
  rw [hft] at h
  have heq : "N/A" = d ++ u := by injection h
  have htl : (['N', '/', 'A'] : List Char) = d.toList ++ u.toList := congrArg String.toList heq
  cases hdl : d.toList with
  | nil => exact toList_ne_nil_of_ne_empty d hd hdl
  | cons c cs =>
    have hc : c = 'N' := by
      rw [hdl] at htl
      injection htl.symm
    have := hdig c (by rw [hdl]; exact List.mem_cons_self c cs)
    rw [hc] at this
    exact absurd this (by decide)

/-! ## Claims about the Result Validator (C2, C6) -/

/-- Claim C2, counterexample: a mapping from which both "JD Match" and
"ATSScore" are absent is NOT rejected by `process_ats_results`; it is
returned successfully, so the claimed `MissingFieldError` failure does not
happen. -/
theorem C2_counterexample :
    process_ats_results (.val (.obj [("Profile Summary", .str "hi")])) =
      .ok (.obj [("Profile Summary", .str "hi")]) := by decide

/-- Claim C2 as amended: an absent score field is skipped by the
membership guard of the validator (the check is inside the field loop).  A mapping lacking both score
fields passes validation and is returned unchanged, and a mapping lacking
only "JD Match" is checked only on "ATSScore"; `process_ats_results` has
no failure path that reports a missing field. -/
theorem C2_absent_fields_skipped (m : List (String × JValue))
    (h1 : lookupJ m "JD Match" = none) (h2 : lookupJ m "ATSScore" = none) :
    process_ats_results (.val (.obj m)) = .ok (.obj m) := by
  show validate_scores (.obj m) = .ok (.obj m)
  unfold validate_scores
  rw [check_score_field_absent m "JD Match" h1, check_score_field_absent m "ATSScore" h2]

/-- Witness for C2: the amended theorem applied at a concrete mapping. -/
theorem C2_absent_fields_skipped_witness :
    process_ats_results (.val (.obj [("MissingKeywords", .arr [.str "sql"])])) =
      .ok (.obj [("MissingKeywords", .arr [.str "sql"])]) :=
  C2_absent_fields_skipped [("MissingKeywords", .arr [.str "sql"])] (by decide) (by decide)

/-- Claim C6, counterexample: the mapping with "JD Match" = "x" and
"ATSScore" = "150" contains a score field whose extracted integer (150)
lies outside [0,100], yet `process_ats_results` raises the int-on-empty-string
ValueError from the digit-free "JD Match" (checked first), not the
range error; so the claim as stated fails. -/
theorem C6_counterexample :
    process_ats_results (.val (.obj [("JD Match", .str "x"), ("ATSScore", .str "150")])) =
        .error .intParseError ∧
    (Except.error PyErr.intParseError : Except PyErr JValue) ≠
        .error (.rangeError "ATSScore") ∧
    (Except.error PyErr.intParseError : Except PyErr JValue) ≠
        .error (.rangeError "JD Match") := by decide

/-- Unfolding corollary: a present field whose extraction succeeds reduces
to the range test. -/
theorem check_score_field_ok_val (m : List (String × JValue)) (f : String)
    (v : JValue) (n : Nat) (hl : lookupJ m f = some v)
    (he : extract_num (pyStr v) = .ok n) :
    check_score_field (.obj m) f =
      if 0 ≤ n ∧ n ≤ 100 then .ok () else .error (.rangeError f) := by
  rw [check_score_field_present m f v hl, he]

/-- Unfolding corollary: a present field whose extraction fails propagates
the extraction error. -/
theorem check_score_field_err (m : List (String × JValue)) (f : String)
    (v : JValue) (e : PyErr) (hl : lookupJ m f = some v)
    (he : extract_num (pyStr v) = .error e) :
    check_score_field (.obj m) f = .error e := by
  rw [check_score_field_present m f v hl, he]

/-- Claim C6 as amended: the validator checks "JD Match" then "ATSScore"
in order; an out-of-range extracted score raises the range ValueError for
its field provided every earlier-checked score field extracted
successfully and in range (extracted values are nonnegative, so out of
range means above 100); in particular "ATSScore" = "150" alone is
rejected with the range error. -/
theorem C6_score_range :
    (∀ (m : List (String × JValue)) (v : JValue) (n : Nat),
       lookupJ m "JD Match" = some v → extract_num (pyStr v) = .ok n → 100 < n →
       process_ats_results (.val (.obj m)) = .error (.rangeError "JD Match")) ∧
    (∀ (m : List (String × JValue)) (v : JValue) (n : Nat),
       lookupJ m "JD Match" = none → lookupJ m "ATSScore" = some v →
       extract_num (pyStr v) = .ok n → 100 < n →
       process_ats_results (.val (.obj m)) = .error (.rangeError "ATSScore")) ∧
    (∀ (m : List (String × JValue)) (v1 : JValue) (n1 : Nat) (v2 : JValue) (n2 : Nat),
       lookupJ m "JD Match" = some v1 → extract_num (pyStr v1) = .ok n1 → n1 ≤ 100 →
       lookupJ m "ATSScore" = some v2 → extract_num (pyStr v2) = .ok n2 → 100 < n2 →
       process_ats_results (.val (.obj m)) = .error (.rangeError "ATSScore")) ∧
    process_ats_results (.val (.obj [("ATSScore", .str "150")])) =
      .error (.rangeError "ATSScore") := by
  refine ⟨?_, ?_, ?_, by decide⟩
  · intro m v n hl he hn
    show validate_scores (.obj m) = _
    unfold validate_scores
    rw [check_score_field_ok_val m "JD Match" v n hl he,
        if_neg (by omega : ¬(0 ≤ n ∧ n ≤ 100))]
  · intro m v n hl1 hl2 he hn
    show validate_scores (.obj m) = _
    unfold validate_scores
    rw [check_score_field_absent m "JD Match" hl1,
        check_score_field_ok_val m "ATSScore" v n hl2 he,
        if_neg (by omega : ¬(0 ≤ n ∧ n ≤ 100))]
  · intro m v1 n1 v2 n2 hl1 he1 hn1 hl2 he2 hn2
    show validate_scores (.obj m) = _
    unfold validate_scores
    rw [check_score_field_ok_val m "JD Match" v1 n1 hl1 he1,
        if_pos (by omega : 0 ≤ n1 ∧ n1 ≤ 100),
        check_score_field_ok_val m "ATSScore" v2 n2 hl2 he2,
        if_neg (by omega : ¬(0 ≤ n2 ∧ n2 ≤ 100))]

/-- Witness for C6: the amended theorem applied at a concrete mapping with
an in-range "JD Match" and "ATSScore" = "150". -/
theorem C6_score_range_witness :
    process_ats_results (.val (.obj [("JD Match", .str "80"), ("ATSScore", .str "150")])) =
      .error (.rangeError "ATSScore") :=
  C6_score_range.2.2.1 [("JD Match", .str "80"), ("ATSScore", .str "150")]
    (.str "80") 80 (.str "150") 150
    (by decide) (by decide) (by decide) (by decide) (by decide) (by decide)

/-! ## Claims C9, C1, C10 -/

/-- Claim C9: validation is a pass/fail gate: whenever `process_ats_results`
succeeds on a mapping it returns that mapping itself, with no field added,
removed or rewritten; and any JSON text that parses back to a successfully
validated mapping also passes the validator, yielding the same mapping
(idempotent validation over a serialize/parse round trip). -/
theorem C9_validation_identity :
    (∀ (m : List (String × JValue)) (r : JValue),
       process_ats_results (.val (.obj m)) = .ok r → r = .obj m) ∧
    (∀ (m : List (String × JValue)) (s : String) (r : JValue),
       json_loads s = some (.obj m) →
       process_ats_results (.val (.obj m)) = .ok r →
       process_ats_results (.text s) = .ok (.obj m)) := by
  constructor
  · intro m r h
    exact validate_scores_ok (.obj m) r h
  · intro m s r hload hval
    have hr : r = .obj m := validate_scores_ok (.obj m) r hval
    show (match json_loads s with
          | some data => validate_scores data
          | none => .error .jsonDecodeError) = .ok (.obj m)
    rw [hload]
    show validate_scores (.obj m) = .ok (.obj m)
    rw [hr] at hval
    exact hval

/-- Witness for C9: a concrete AnalysisResult mapping is validated
unchanged, its `json_dumps` serialization parses back to it, and feeding
that text through the validator succeeds with the same mapping. -/
theorem C9_validation_identity_witness :
    json_loads (json_dumps (.obj [("JD Match", .str "85% strong"),
        ("ATSScore", .str "90"), ("MissingKeywords", .arr [.str "python"])])) =
      some (.obj [("JD Match", .str "85% strong"),
        ("ATSScore", .str "90"), ("MissingKeywords", .arr [.str "python"])]) ∧
    process_ats_results (.text (json_dumps (.obj [("JD Match", .str "85% strong"),
        ("ATSScore", .str "90"), ("MissingKeywords", .arr [.str "python"])]))) =
      .ok (.obj [("JD Match", .str "85% strong"),
        ("ATSScore", .str "90"), ("MissingKeywords", .arr [.str "python"])]) :=
  ⟨by decide,
   C9_validation_identity.2
     [("JD Match", .str "85% strong"), ("ATSScore", .str "90"),
      ("MissingKeywords", .arr [.str "python"])]
     _ (.obj [("JD Match", .str "85% strong"), ("ATSScore", .str "90"),
      ("MissingKeywords", .arr [.str "python"])])
     (by decide) (by decide)⟩

/-- Claim C1, counterexample: for the sentinel "N/A" the Result Validator
does not extract 0: it raises the int-on-empty-string ValueError (so a mapping with
"JD Match" = "N/A" is rejected); and for a digit-free non-sentinel string
the score-card display also raises instead of extracting 0. -/
theorem C1_counterexample :
    process_ats_results (.val (.obj [("JD Match", .str "N/A")])) =
        .error .intParseError ∧
    display_match_num (.str "abc") = .error .intParseError ∧
    (Except.error PyErr.intParseError : Except PyErr Nat) ≠ .ok 0 := by decide

/-- Claim C1 as amended: when the first whitespace-delimited token of a
score string is a digit run `d` followed by digit-free characters, the
value extracted by the validator expression and by the four display/PDF
call sites equals `int(d)`.  For the sentinel "N/A" the display and PDF
sites return 0 while the validator expression raises the int-on-empty
ValueError; a string with no token raises IndexError at every site, and a
non-sentinel string whose first token is digit-free raises the
int-on-empty ValueError at every site. -/
theorem C1_extraction_rule :
    (∀ s d u : String,
       first_token s = some (d ++ u) → d ≠ "" →
       (∀ c ∈ d.toList, py_isdigit c = true) →
       (∀ c ∈ u.toList, py_isdigit c = false) →
       extract_num s = .ok (digits_to_nat d.toList) ∧
       display_match_num (.str s) = .ok (digits_to_nat d.toList) ∧
       display_ats_num (.str s) = .ok (digits_to_nat d.toList) ∧
       pdf_match_num (.str s) = .ok (digits_to_nat d.toList) ∧
       pdf_ats_num (.str s) = .ok (digits_to_nat d.toList)) ∧
    (display_match_num (.str "N/A") = .ok 0 ∧
     display_ats_num (.str "N/A") = .ok 0 ∧
     pdf_match_num (.str "N/A") = .ok 0 ∧
     pdf_ats_num (.str "N/A") = .ok 0 ∧
     extract_num "N/A" = .error .intParseError) ∧
    (∀ s : String, first_token s = none →
       extract_num s = .error .indexError ∧
       display_match_num (.str s) = .error .indexError) ∧
    (∀ s tok : String, first_token s = some tok →
       tok.toList.filter py_isdigit = [] → s ≠ "N/A" →
       extract_num s = .error .intParseError ∧
       display_match_num (.str s) = .error .intParseError) := by
  refine ⟨?_, by decide, ?_, ?_⟩
  · intro s d u h hd hdig hnd
    have hs : s ≠ "N/A" := ne_sentinel_of_leading s d u h hd hdig
    have he : extract_num s = .ok (digits_to_nat d.toList) :=
      extract_num_leading s d u h hd hdig hnd
    have hne : JValue.str s ≠ JValue.str "N/A" := by
      intro hc; exact hs (by injection hc)
    refine ⟨he, ?_, ?_, ?_, ?_⟩ <;>
      simp [display_match_num, display_ats_num, pdf_match_num, pdf_ats_num, hne, pyStr, he]
  · intro s h
    have hs : s ≠ "N/A" := by
      intro hc; subst hc; exact absurd h (by decide)
    have he : extract_num s = .error .indexError := extract_num_eq_none s h
    have hne : JValue.str s ≠ JValue.str "N/A" := by
      intro hc; exact hs (by injection hc)
    exact ⟨he, by simp [display_match_num, hne, pyStr, he]⟩
  · intro s tok h hnd hs
    have he : extract_num s = .error .intParseError := extract_num_no_digit s tok h hnd
    have hne : JValue.str s ≠ JValue.str "N/A" := by
      intro hc; exact hs (by injection hc)
    exact ⟨he, by simp [display_match_num, hne, pyStr, he]⟩

/-- Witness for C1: the amended theorem applied to "85% match" with digit
run "85" and remainder "%". -/
theorem C1_extraction_rule_witness :
    extract_num "85% match" = .ok 85 ∧ display_match_num (.str "85% match") = .ok 85 :=
  have h := C1_extraction_rule.1 "85% match" "85" "%"
    (by decide) (by decide) (by decide) (by decide)
  ⟨h.1.trans (by decide), h.2.1.trans (by decide)⟩

/-- Claim C10: the numeric score shared by the validator, the score card
and the PDF report is the integer reading of the concatenation of ALL
digit characters of the first whitespace-delimited token (not only a
leading run): "45.5%" yields 455 and "a4b5" yields 45; the display and
PDF call sites compute identical functions; and on any value whose
extraction succeeds, all four display/PDF sites return exactly the
number the validator extracted. -/
theorem C10_digit_concatenation :
    extract_num "45.5%" = .ok 455 ∧
    extract_num "a4b5" = .ok 45 ∧
    (∀ s tok : String, first_token s = some tok →
       tok.toList.filter py_isdigit ≠ [] →
       extract_num s = .ok (digits_to_nat (tok.toList.filter py_isdigit))) ∧
    (∀ v : JValue, display_match_num v = pdf_match_num v ∧
       display_ats_num v = pdf_ats_num v ∧
       display_match_num v = display_ats_num v) ∧
    (∀ (v : JValue) (n : Nat), extract_num (pyStr v) = .ok n →
       display_match_num v = .ok n ∧ display_ats_num v = .ok n ∧
       pdf_match_num v = .ok n ∧ pdf_ats_num v = .ok n) := by
  refine ⟨by decide, by decide, ?_, ?_, ?_⟩
  · intro s tok h hnz
    exact extract_num_all_digits s tok h hnz
  · intro v
    exact ⟨rfl, rfl, rfl⟩
  · intro v n h
    have hne : v ≠ JValue.str "N/A" := by
      intro hc
      subst hc
      rw [show pyStr (JValue.str "N/A") = "N/A" from rfl,
          (by decide : extract_num "N/A" = Except.error PyErr.intParseError)] at h
      exact Except.noConfusion h
    refine ⟨?_, ?_, ?_, ?_⟩ <;>
      simp [display_match_num, display_ats_num, pdf_match_num, pdf_ats_num, hne, h]

/-- Witness for C10: the final conjunct applied at the concrete value
"45.5%", showing all call sites agree on 455. -/
theorem C10_digit_concatenation_witness :
    display_match_num (.str "45.5%") = .ok 455 ∧ pdf_ats_num (.str "45.5%") = .ok 455 :=
  have h := C10_digit_concatenation.2.2.2.2 (.str "45.5%") 455 (by decide)
  ⟨h.1, h.2.2.2⟩

/-! ## Claims about the Action Plan Deriver (C3, C5) -/

/-- Whether key `k` is absent from `m` or mapped to a dict (the only shapes
on which a chained `.get` cannot raise). -/
def dict_or_absentB (m : List (String × JValue)) (k : String) : Bool :=
  match lookupJ m k with
  | none => true
  | some (.obj _) => true
  | some _ => false

/-- Spec-side projection, written from the claim text: the value of `key`
inside the record `parent` of `m`, defaulting when the parent record or
the field is absent. -/
def spec_nested_get (m : List (String × JValue)) (parent key : String) (d : JValue) : JValue :=
  match lookupJ m parent with
  | none => d
  | some (.obj kvs) => (lookupJ kvs key).getD d
  | some _ => d

/-- Case split delivered by a true `dict_or_absentB`. -/
theorem dict_or_absentB_cases (m : List (String × JValue)) (k : String)
    (h : dict_or_absentB m k = true) :
    lookupJ m k = none ∨ ∃ kvs, lookupJ m k = some (.obj kvs) := by
  unfold dict_or_absentB at h
  cases hl : lookupJ m k with
  | none => exact .inl rfl
  | some v =>
    rw [hl] at h
    cases v with
    | obj kvs => exact .inr ⟨kvs, rfl⟩
    | null => simp at h
    | bool b => simp at h
    | num n => simp at h
    | str s2 => simp at h
    | arr xs => simp at h

/-- Computation of the action-plan builder on a mapping whose
`Recommendations` and `SkillsAlignment` are dicts or absent. -/
theorem build_action_plan_eq (m : List (String × JValue))
    (h1 : dict_or_absentB m "Recommendations" = true)
    (h2 : dict_or_absentB m "SkillsAlignment" = true) :
    generate_action_plan.build_action_plan (.obj m) = .ok (.obj [
      ("immediate_actions", spec_nested_get m "Recommendations" "HighPriority" (.arr [])),
      ("keyword_integration", spec_nested_get m "Recommendations" "KeywordOptimization" (.arr [])),
      ("missing_keywords", (lookupJ m "MissingKeywords").getD (.arr [])),
      ("skill_gaps", spec_nested_get m "SkillsAlignment" "GapAnalysis" (.str "")),
      ("red_flags_to_fix", (lookupJ m "RedFlags").getD (.arr [])),
      ("competitive_edge", (lookupJ m "CompetitiveAdvantage").getD (.str ""))]) := by
  rcases dict_or_absentB_cases m "Recommendations" h1 with hR | ⟨rkvs, hR⟩ <;>
  rcases dict_or_absentB_cases m "SkillsAlignment" h2 with hS | ⟨skvs, hS⟩ <;>
    simp [generate_action_plan.build_action_plan, py_get, hR, hS, spec_nested_get, lookupJ]

/-- Claim C3, counterexample: a mapping input whose `Recommendations` field
is a string makes `generate_action_plan` raise (the chained `.get` hits
`AttributeError`), so the deriver does fail on some mapping inputs. -/
theorem C3_counterexample :
    generate_action_plan (.val (.obj [("Recommendations", .str "great")])) =
      .error .attrError := by decide

/-- Claim C3 as amended: `generate_action_plan` returns an ActionPlan
record without raising on every mapping whose `Recommendations` and
`SkillsAlignment` fields, when present, are themselves mappings; a present
non-mapping value in either position raises `AttributeError` (for
`SkillsAlignment` this is the raise of the `skill_gaps` chain, reached
once the earlier `Recommendations` chains have not raised); a string
input that does not parse as JSON raises `MalformedJsonError`. -/
theorem C3_deriver_totality :
    (∀ m : List (String × JValue),
       dict_or_absentB m "Recommendations" = true →
       dict_or_absentB m "SkillsAlignment" = true →
       except_is_ok (generate_action_plan (.val (.obj m))) = true) ∧
    (∀ (m : List (String × JValue)) (v : JValue),
       lookupJ m "Recommendations" = some v → (∀ kvs, v ≠ .obj kvs) →
       generate_action_plan (.val (.obj m)) = .error .attrError) ∧
    (∀ (m : List (String × JValue)) (v : JValue),
       dict_or_absentB m "Recommendations" = true →
       lookupJ m "SkillsAlignment" = some v → (∀ kvs, v ≠ .obj kvs) →
       generate_action_plan (.val (.obj m)) = .error .attrError) ∧
    (∀ s : String, json_loads s = none →
       generate_action_plan (.text s) = .error .jsonDecodeError) := by
  refine ⟨?_, ?_, ?_, ?_⟩
  · intro m h1 h2
    show except_is_ok (generate_action_plan.build_action_plan (.obj m)) = true
    rw [build_action_plan_eq m h1 h2]
    rfl
  · intro m v hR hv
    show generate_action_plan.build_action_plan (.obj m) = .error .attrError
    cases v with
    | obj kvs => exact absurd rfl (hv kvs)
    | null => simp [generate_action_plan.build_action_plan, py_get, hR]
    | bool b => simp [generate_action_plan.build_action_plan, py_get, hR]
    | num n => simp [generate_action_plan.build_action_plan, py_get, hR]
    | str s2 => simp [generate_action_plan.build_action_plan, py_get, hR]
    | arr xs => simp [generate_action_plan.build_action_plan, py_get, hR]
  · intro m v h1 hS hv
    show generate_action_plan.build_action_plan (.obj m) = .error .attrError
    rcases dict_or_absentB_cases m "Recommendations" h1 with hR | ⟨rkvs, hR⟩ <;>
    cases v with
    | obj kvs => exact absurd rfl (hv kvs)
    | null => simp [generate_action_plan.build_action_plan, py_get, hR, hS, lookupJ]
    | bool b => simp [generate_action_plan.build_action_plan, py_get, hR, hS, lookupJ]
    | num n => simp [generate_action_plan.build_action_plan, py_get, hR, hS, lookupJ]
    | str s2 => simp [generate_action_plan.build_action_plan, py_get, hR, hS, lookupJ]
    | arr xs => simp [generate_action_plan.build_action_plan, py_get, hR, hS, lookupJ]
  · intro s h
    show (match json_loads s with
          | some data => generate_action_plan.build_action_plan data
          | none => .error .jsonDecodeError) = .error .jsonDecodeError
    rw [h]

/-- Witness for C3: the amended theorem applied at a concrete well-shaped
mapping, at a concrete mapping with a string-valued SkillsAlignment, and
at a concrete unparsable string. -/
theorem C3_deriver_totality_witness :
    except_is_ok (generate_action_plan (.val (.obj [("MissingKeywords", .arr [.str "sql"])]))) =
      true ∧
    generate_action_plan (.val (.obj [("SkillsAlignment", .str "weak")])) =
      .error .attrError ∧
    generate_action_plan (.text "not json") = .error .jsonDecodeError :=
  ⟨C3_deriver_totality.1 [("MissingKeywords", .arr [.str "sql"])] (by decide) (by decide),
   C3_deriver_totality.2.2.1 [("SkillsAlignment", .str "weak")] (.str "weak")
     (by decide) (by decide) (by intro kvs h; exact JValue.noConfusion h),
   C3_deriver_totality.2.2.2 "not json" (by decide)⟩

/-- Claim C5: on a mapping whose `Recommendations` and `SkillsAlignment`
fields, when present, are mappings, `generate_action_plan` returns exactly
the projection record: `missing_keywords` is `MissingKeywords` itself,
`immediate_actions` and `keyword_integration` come from
`Recommendations.HighPriority` and `Recommendations.KeywordOptimization`,
`skill_gaps` from `SkillsAlignment.GapAnalysis`, `red_flags_to_fix` from
`RedFlags`, `competitive_edge` from `CompetitiveAdvantage`, each
defaulting to an empty list (empty string for `skill_gaps` and
`competitive_edge`) when the source field or its parent is absent. -/
theorem C5_action_plan_projection (m : List (String × JValue))
    (h1 : dict_or_absentB m "Recommendations" = true)
    (h2 : dict_or_absentB m "SkillsAlignment" = true) :
    generate_action_plan (.val (.obj m)) = .ok (.obj [
      ("immediate_actions", spec_nested_get m "Recommendations" "HighPriority" (.arr [])),
      ("keyword_integration", spec_nested_get m "Recommendations" "KeywordOptimization" (.arr [])),
      ("missing_keywords", (lookupJ m "MissingKeywords").getD (.arr [])),
      ("skill_gaps", spec_nested_get m "SkillsAlignment" "GapAnalysis" (.str "")),
      ("red_flags_to_fix", (lookupJ m "RedFlags").getD (.arr [])),
      ("competitive_edge", (lookupJ m "CompetitiveAdvantage").getD (.str ""))]) :=
  build_action_plan_eq m h1 h2

/-- Witness for C5: the theorem applied at a mapping exercising both a
present nested field and the absent-parent defaults. -/
theorem C5_action_plan_projection_witness :
    generate_action_plan (.val (.obj
      [("MissingKeywords", .arr [.str "sql", .str "aws"]),
       ("Recommendations", .obj [("HighPriority", .arr [.str "add sql"])])])) =
    .ok (.obj [
      ("immediate_actions", .arr [.str "add sql"]),
      ("keyword_integration", .arr []),
      ("missing_keywords", .arr [.str "sql", .str "aws"]),
      ("skill_gaps", .str ""),
      ("red_flags_to_fix", .arr []),
      ("competitive_edge", .str "")]) :=
  (C5_action_plan_projection
    [("MissingKeywords", .arr [.str "sql", .str "aws"]),
     ("Recommendations", .obj [("HighPriority", .arr [.str "add sql"])])]
    (by decide) (by decide)).trans (by decide)

/-! ## Claim C4: the Prompt Builder guard -/

/-- Claim C4, counterexample: a whitespace-only job description is truthy
in Python, so `prepare_prompt` accepts it instead of raising the claimed
`InvalidInputError`; the whitespace turns into an empty substitution after
the later `strip()`. -/
theorem C4_counterexample :
    except_is_ok (prepare_prompt "resume text" "   ") = true := by decide

/-- Claim C4 as amended: `prepare_prompt` raises `ValueError` exactly when
either raw input is the empty string (Python falsiness, applied before any
trimming), so whitespace-only inputs are accepted; every accepted pair
yields the fixed template with the two stripped inputs substituted. -/
theorem C4_prompt_guard :
    (∀ rt jd : String,
       prepare_prompt rt jd = .error .emptyInputError ↔ rt = "" ∨ jd = "") ∧
    (∀ rt jd : String, rt ≠ "" → jd ≠ "" →
       prepare_prompt rt jd =
         .ok (prompt_seg1 ++ py_strip rt ++ prompt_seg2 ++ py_strip jd ++ prompt_seg3)) := by
  constructor
  · intro rt jd
    constructor
    · intro h
      by_contra hc
      push_neg at hc
      rw [prepare_prompt, if_neg (by tauto)] at h
      exact Except.noConfusion h
    · intro h
      rw [prepare_prompt, if_pos h]
  · intro rt jd h1 h2
    rw [prepare_prompt, if_neg (by tauto)]

/-- Witness for C4: the amended theorem applied at nonempty inputs with
surrounding whitespace, then evaluated. -/
theorem C4_prompt_guard_witness :
    prepare_prompt " my resume " "the jd" =
      .ok (prompt_seg1 ++ "my resume" ++ prompt_seg2 ++ "the jd" ++ prompt_seg3) :=
  (C4_prompt_guard.2 " my resume " "the jd" (by decide) (by decide)).trans (by
    rw [show py_strip " my resume " = "my resume" from by decide,
        show py_strip "the jd" = "the jd" from by decide])

/-! ## Claim C8: classification thresholds -/

/-- Three-region characterization of a two-threshold selector. -/
theorem tri_iff (f : Nat → String) (a b c : String) (lo mid : Nat)
    (hab : a ≠ b) (hac : a ≠ c) (hbc : b ≠ c)
    (hf : ∀ n, f n = if mid ≤ n then a else if lo ≤ n then b else c)
    (hlm : lo ≤ mid) (n : Nat) :
    (f n = a ↔ mid ≤ n) ∧ (f n = b ↔ lo ≤ n ∧ n < mid) ∧ (f n = c ↔ n < lo) := by
  rw [hf n]
  split_ifs with hy1 hy2
  · exact ⟨iff_of_true rfl hy1, iff_of_false hab (by omega), iff_of_false hac (by omega)⟩
  · exact ⟨iff_of_false (Ne.symm hab) (by omega), iff_of_true rfl (by omega),
      iff_of_false hbc (by omega)⟩
  · exact ⟨iff_of_false (Ne.symm hac) (by omega), iff_of_false (Ne.symm hbc) (by omega),
      iff_of_true rfl (by omega)⟩

/-- Claim C8: the score-card colors and the PDF status labels partition
scores at the same cut points: job-match is "green"/"Excellent" iff
n at least 70, "orange"/"Good" iff 50 at least and below 70, else
"red"/"Needs Improvement"; ATS is "green"/"Excellent" iff n at least 80,
"orange"/"Good" iff 60 at least and below 80, else "red"/"Needs
Improvement"; and on the spec scenarios "45% - weak alignment" extracts
45, lands in the lowest job-match class, and "82" extracts 82, landing in
the highest ATS class. -/
theorem C8_thresholds :
    (∀ n : Nat,
      (match_color n = "green" ↔ 70 ≤ n) ∧
      (match_color n = "orange" ↔ 50 ≤ n ∧ n < 70) ∧
      (match_color n = "red" ↔ n < 50) ∧
      (ats_color n = "green" ↔ 80 ≤ n) ∧
      (ats_color n = "orange" ↔ 60 ≤ n ∧ n < 80) ∧
      (ats_color n = "red" ↔ n < 60) ∧
      (pdf_match_status n = "Excellent" ↔ 70 ≤ n) ∧
      (pdf_match_status n = "Good" ↔ 50 ≤ n ∧ n < 70) ∧
      (pdf_match_status n = "Needs Improvement" ↔ n < 50) ∧
      (pdf_ats_status n = "Excellent" ↔ 80 ≤ n) ∧
      (pdf_ats_status n = "Good" ↔ 60 ≤ n ∧ n < 80) ∧
      (pdf_ats_status n = "Needs Improvement" ↔ n < 60)) ∧
    (display_match_num (.str "45% - weak alignment") = .ok 45 ∧
     match_color 45 = "red" ∧
     pdf_match_status 45 = "Needs Improvement" ∧
     display_ats_num (.str "82") = .ok 82 ∧
     ats_color 82 = "green" ∧
     pdf_ats_status 82 = "Excellent") := by
  constructor
  · intro n
    have t1 := tri_iff match_color "green" "orange" "red" 50 70
      (by decide) (by decide) (by decide) (fun n => rfl) (by omega) n
    have t2 := tri_iff ats_color "green" "orange" "red" 60 80
      (by decide) (by decide) (by decide) (fun n => rfl) (by omega) n
    have t3 := tri_iff pdf_match_status "Excellent" "Good" "Needs Improvement" 50 70
      (by decide) (by decide) (by decide) (fun n => rfl) (by omega) n
    have t4 := tri_iff pdf_ats_status "Excellent" "Good" "Needs Improvement" 60 80
      (by decide) (by decide) (by decide) (fun n => rfl) (by omega) n
    exact ⟨t1.1, t1.2.1, t1.2.2, t2.1, t2.2.1, t2.2.2,
           t3.1, t3.2.1, t3.2.2, t4.1, t4.2.1, t4.2.2⟩
  · decide

/-- Witness for C8: the characterization applied at 45 and 82. -/
theorem C8_thresholds_witness :
    match_color 45 = "red" ∧ ats_color 82 = "green" :=
  ⟨((C8_thresholds.1 45).2.2.1).mpr (by omega),
   ((C8_thresholds.1 82).2.2.2.1).mpr (by omega)⟩

/-! ## Claim C7: brace-region recovery in the Model Client -/

/-- First-index computation on a list whose first occurrence of `ch` is
explicit. -/
theorem first_index_of_append (ch : Char) (a r : List Char) (ha : ch ∉ a) :
    first_index_of ch (a ++ ch :: r) = some a.length := by
  induction a with
  | nil => simp [first_index_of]
  | cons x xs ih =>
    have hx : ¬(x = ch) := fun h => ha (h ▸ List.mem_cons_self x xs)
    have hxs : ch ∉ xs := fun h => ha (List.mem_cons_of_mem x h)
    simp [first_index_of, hx, ih hxs]

/-- Last-index computation on a list whose last occurrence of `ch` is
explicit. -/
theorem last_index_of_append (ch : Char) (a r : List Char) (hr : ch ∉ r) :
    last_index_of ch (a ++ ch :: r) = some a.length := by
  unfold last_index_of
  rw [show (a ++ ch :: r).reverse = r.reverse ++ ch :: a.reverse by simp]
  rw [first_index_of_append ch r.reverse a.reverse (by simp [hr])]
  show some ((a ++ ch :: r).length - 1 - r.reverse.length) = some a.length
  congr 1
  simp

/-- Unfolding equation for `brace_region` when both indices exist. -/
theorem brace_region_eq (s : String) (i j : Nat)
    (hf : first_index_of lbrace s.toList = some i)
    (hl : last_index_of rbrace s.toList = some j) :
    brace_region s =
      if i < j then some (String.mk ((s.toList.drop i).take (j - i + 1))) else none := by
  unfold brace_region
  rw [hf, hl]

/-- The brace-region scan on a string decomposed at its first left brace
and last right brace returns exactly that bracketed segment. -/
theorem brace_region_decomp (s : String) (a b c : List Char)
    (h : s.toList = a ++ lbrace :: (b ++ rbrace :: c))
    (ha : lbrace ∉ a) (hc : rbrace ∉ c) :
    brace_region s = some (String.mk (lbrace :: (b ++ [rbrace]))) := by
  have h3 : s.toList = (a ++ lbrace :: b) ++ rbrace :: c := by rw [h]; simp
  have hfio : first_index_of lbrace s.toList = some a.length := by
    rw [h]; exact first_index_of_append lbrace a (b ++ rbrace :: c) ha
  have hlio : last_index_of rbrace s.toList = some (a.length + 1 + b.length) := by
    rw [h3, last_index_of_append rbrace (a ++ lbrace :: b) c hc]
    congr 1
    simp
    omega
  rw [brace_region_eq s a.length (a.length + 1 + b.length) hfio hlio,
      if_pos (by omega)]
  congr 2
  rw [h, List.drop_left a (lbrace :: (b ++ rbrace :: c)),
      show a.length + 1 + b.length - a.length + 1 = b.length + 2 by omega,
      show (lbrace :: (b ++ rbrace :: c)).take (b.length + 2) =
        lbrace :: (b ++ rbrace :: c).take (b.length + 1) from rfl,
      List.take_append]
  rfl

/-- A computed first index yields an explicit decomposition. -/
theorem first_index_of_decomp (ch : Char) : ∀ (cs : List Char) (i : Nat),
    first_index_of ch cs = some i →
    ∃ a r, cs = a ++ ch :: r ∧ a.length = i ∧ ch ∉ a := by
  intro cs
  induction cs with
  | nil => intro i h; simp [first_index_of] at h
  | cons x xs ih =>
    intro i h
    by_cases hx : x = ch
    · subst hx
      rw [first_index_of, if_pos rfl] at h
      have hi : i = 0 := by injection h with h2; exact h2.symm
      subst hi
      exact ⟨[], xs, rfl, rfl, by simp⟩
    · rw [first_index_of, if_neg hx] at h
      cases hfi : first_index_of ch xs with
      | none => rw [hfi] at h; simp at h
      | some j =>
        rw [hfi] at h
        simp at h
        obtain ⟨a, r, heq, hlen, hmem⟩ := ih j hfi
        refine ⟨x :: a, r, by simp [heq], by simp [hlen, ← h], ?_⟩
        intro hm
        rcases List.mem_cons.mp hm with h1 | h2
        · exact hx h1.symm
        · exact hmem h2

/-- A computed last index yields an explicit decomposition. -/
theorem last_index_of_decomp (ch : Char) (cs : List Char) (j : Nat)
    (h : last_index_of ch cs = some j) :
    ∃ a r, cs = a ++ ch :: r ∧ a.length = j ∧ ch ∉ r := by
  unfold last_index_of at h
  cases hfi : first_index_of ch cs.reverse with
  | none => rw [hfi] at h; simp at h
  | some k =>
    rw [hfi] at h
    simp at h
    obtain ⟨a, r, heq, hlen, hmem⟩ := first_index_of_decomp ch cs.reverse k hfi
    have hcs : cs = r.reverse ++ ch :: a.reverse := by
      have : cs.reverse.reverse = (a ++ ch :: r).reverse := by rw [heq]
      simpa using this
    have hlens : cs.length = a.length + r.length + 1 := by
      rw [hcs]; simp; omega
    refine ⟨r.reverse, a.reverse, hcs, ?_, by simp [hmem]⟩
    simp
    omega

/-- When the text admits no decomposition with a left brace before a right
brace, the brace-region scan finds nothing. -/
theorem brace_region_none (s : String)
    (h : ∀ a b c : List Char, s.toList ≠ a ++ lbrace :: (b ++ rbrace :: c)) :
    brace_region s = none := by
  cases hfi : first_index_of lbrace s.toList with
  | none =>
    cases hli : last_index_of rbrace s.toList <;> (unfold brace_region; rw [hfi, hli])
  | some i =>
    cases hli : last_index_of rbrace s.toList with
    | none => unfold brace_region; rw [hfi, hli]
    | some j =>
      by_cases hij : i < j
      · exfalso
        obtain ⟨a1, r1, he1, hl1, _⟩ := first_index_of_decomp lbrace s.toList i hfi
        obtain ⟨a2, r2, he2, hl2, _⟩ := last_index_of_decomp rbrace s.toList j hli
        have htake1 : s.toList.take (i + 1) = a1 ++ [lbrace] := by
          rw [he1, ← hl1, List.take_append, List.take_succ_cons, List.take_zero]
        have ha2 : a2 = s.toList.take j := by
          rw [he2, ← hl2, List.take_left]
        have ha2split : a2 = a1 ++ [lbrace] ++ a2.drop (i + 1) := by
          have h1 : a2.take (i + 1) = s.toList.take (i + 1) := by
            rw [ha2, List.take_take, Nat.min_eq_left (by omega)]
          rw [← htake1, ← h1]
          exact (List.take_append_drop (i + 1) a2).symm
        apply h a1 (a2.drop (i + 1)) r2
        conv_lhs => rw [he2, ha2split]
        simp
      · rw [brace_region_eq s i j hfi hli, if_neg hij]

/-- Claim C7: when the model reply fails the strict JSON parse, the Model
Client recovery returns the substring running from the first left brace
(that precedes the last right brace) through the last right brace,
spanning newlines and without further validation; when the reply admits no
such brace-delimited region, it fails with `UnparsableResponseError`. -/
theorem C7_brace_recovery :
    (∀ (t : String) (a b c : List Char),
       json_loads t = none →
       t.toList = a ++ lbrace :: (b ++ rbrace :: c) →
       lbrace ∉ a → rbrace ∉ c →
       get_gemini_response_on_text t = .ok (String.mk (lbrace :: (b ++ [rbrace])))) ∧
    (∀ t : String, json_loads t = none →
       (∀ a b c : List Char, t.toList ≠ a ++ lbrace :: (b ++ rbrace :: c)) →
       get_gemini_response_on_text t = .error .unparsableResponse) := by
  constructor
  · intro t a b c hload hdec ha hc
    unfold get_gemini_response_on_text
    rw [hload, brace_region_decomp t a b c hdec ha hc]
  · intro t hload hno
    unfold get_gemini_response_on_text
    rw [hload, brace_region_none t hno]

/-- Witness for C7: the spec scenario, a preamble-wrapped JSON object with
trailing text; recovery extracts the brace region and that region parses
as JSON. -/
theorem C7_brace_recovery_witness :
    get_gemini_response_on_text "Some preamble text \x7b\"JD Match\": \"70\"\x7d trailing" =
      .ok "\x7b\"JD Match\": \"70\"\x7d" ∧
    json_loads "\x7b\"JD Match\": \"70\"\x7d" = some (.obj [("JD Match", .str "70")]) :=
  ⟨(C7_brace_recovery.1 "Some preamble text \x7b\"JD Match\": \"70\"\x7d trailing"
      "Some preamble text ".toList "\"JD Match\": \"70\"".toList " trailing".toList
      (by decide) (by decide) (by decide) (by decide)).trans (by decide),
   by decide⟩
